import Mathlib

/-!
Verification of the servo_config preference store (components/config/prefs.rs).

The embedding translates the code of prefs.rs; the external serde_json parser
enters as an `Except` argument (its data model of parsed nodes is embedded
below), and the parts of the crate that live in pref_util.rs (PrefValue,
PrefError, Preferences) are modelled from the specification, as marked.
-/

namespace ServoConfig

/-- A 64-bit floating point payload, kept as an uninterpreted bit pattern:
the preference code only moves floats around and never computes with them. -/
structure F64 where
  bits : Nat

/-- serde_json's number node: a JSON number is stored as a u64 (non-negative
integers), an i64 (negative integers) or an f64 (anything written in floating
point form). `posInt` carries the u64 payload as a Nat, `negInt` the i64
payload as an Int. -/
inductive JNumber where
  | posInt : Nat → JNumber
  | negInt : Int → JNumber
  | float : F64 → JNumber

/-- Largest value representable in an i64, as a Nat. -/
def i64Max : Nat := 2 ^ 63 - 1

/-- serde_json `Number::as_i64`: the u64 payload if it fits an i64, the i64
payload always, nothing for a float-stored number. -/
def JNumber.asI64 : JNumber → Option Int
  | .posInt n => if n ≤ i64Max then some (n : Int) else none
  | .negInt i => some i
  | .float _ => none

/-- serde_json `Number::is_i64`. -/
def JNumber.isI64 (n : JNumber) : Bool := n.asI64.isSome

/-- serde_json `Number::is_f64`: true exactly for float-stored numbers. -/
def JNumber.isF64 : JNumber → Bool
  | .float _ => true
  | _ => false

/-- serde_json `Number::as_f64`, restricted to the float-stored case.
read_prefs_map only calls it under the `is_f64` guard, where serde_json
returns the stored payload (serde_json additionally converts integer-stored
numbers to floats, a branch unreachable under that guard). -/
def JNumber.asF64 : JNumber → Option F64
  | .float f => some f
  | _ => none

/-- serde_json's `Value`: a parsed JSON node. Objects are string-keyed; the
embedding keeps them as key/value lists. -/
inductive Value where
  | null : Value
  | bool : Bool → Value
  | num : JNumber → Value
  | str : String → Value
  | arr : List Value → Value
  | obj : List (String × Value) → Value

/-- Modelled from the spec: the Value Kind tagged union of pref_util.rs
(section 3), which is not part of the excerpt: Bool, Int (i64), Float (f64),
Str, and an ordered sequence of Value Kinds. -/
inductive PrefValue where
  | Bool : Bool → PrefValue
  | Int : Int → PrefValue
  | Float : F64 → PrefValue
  | Str : String → PrefValue
  | Array : List PrefValue → PrefValue

/-- Modelled from the spec: the PrefError kinds of pref_util.rs (section 7),
which is not part of the excerpt. `jsonParseErr` wraps the external parser's
diagnostic (abstracted as a string). In the source `invalidValue` carries the
message string built by `format!("Invalid value: \x7b\x7d", pref_value)`; the
embedding carries the offending JSON value itself, which that message renders
(float rendering is not modelled). `noSuchPref` and `typeMismatch` carry
their diagnostic text. -/
inductive PrefError where
  | jsonParseErr : String → PrefError
  | invalidValue : Value → PrefError
  | noSuchPref : String → PrefError
  | typeMismatch : String → PrefError

mutual

/-- Modelled from the spec: `PrefValue::from_json_value` lives in
pref_util.rs, which is not part of the excerpt. Spec section 4.1: the
matching scalar kind for boolean/number/string nodes (numbers through the
same is_i64-before-is_f64 guards that read_prefs_map uses inline); an array
node converts only when every element does, keeping the converted elements;
every other shape fails. -/
def PrefValue.from_json_value : Value → Option PrefValue
  | .bool b => some (.Bool b)
  | .num n =>
    match n.asI64 with
    | some i => some (.Int i)
    | none =>
      match n.asF64 with
      | some f => some (.Float f)
      | none => none
  | .str s => some (.Str s)
  | .arr l =>
    match fromJsonList l with
    | some xs => some (.Array xs)
    | none => none
  | _ => none

/-- Element-wise conversion of a JSON array's contents, all-or-nothing. -/
def fromJsonList : List Value → Option (List PrefValue)
  | [] => some []
  | v :: vs =>
    match PrefValue.from_json_value v, fromJsonList vs with
    | some x, some xs => some (x :: xs)
    | _, _ => none

end

/-- Models Rust's `Iterator::all` running over the (lazily) mapped element
iterator `v.iter().map(PrefValue::from_json_value)` of prefs.rs line 77,
materialized as a list: `all` consumes items up to and including the first
failing one (or the whole iterator when none fails); the second component is
what is left in the iterator afterwards. -/
def iterAllLeftover : List (Option PrefValue) → Bool × List (Option PrefValue)
  | [] => (true, [])
  | x :: xs => if x.isSome then iterAllLeftover xs else (false, xs)

/-- The value-conversion match inside read_prefs_map's per-entry closure
(prefs.rs lines 71-93). A number passing neither guard falls through to the
catch-all arm; both that arm and the failed-array arm report
`InvalidValue` on the whole entry value. The array arm reproduces the
source exactly: the element iterator is first consumed by
`array.all(|v| v.is_some())` and the leftover is then flattened and
collected (`array.flatten().collect()`). -/
def read_prefs_map_value (v : Value) : Except PrefError PrefValue :=
  match v with
  | .bool b => .ok (.Bool b)
  | .num n =>
    match n.asI64 with
    | some i => .ok (.Int i)
    | none =>
      match n.asF64 with
      | some f => .ok (.Float f)
      | none => .error (.invalidValue v)
  | .str s => .ok (.Str s)
  | .arr l =>
    let array := l.map PrefValue.from_json_value
    let consumed := iterAllLeftover array
    if consumed.1 then .ok (.Array (consumed.2.filterMap id))
    else .error (.invalidValue v)
  | _ => .error (.invalidValue v)

/-- The entry-wise convert-and-collect stage of read_prefs_map (prefs.rs
lines 67-97). Rust collects into `Result<HashMap, _>`, stopping at the first
failing entry in the HashMap's iteration order; the embedding fixes that
iteration order as the list order of the parsed document. -/
def read_prefs_map_entries : List (String × Value) → Except PrefError (List (String × PrefValue))
  | [] => .ok []
  | (k, v) :: rest =>
    match read_prefs_map_value v with
    | .error e => .error e
    | .ok pv =>
      match read_prefs_map_entries rest with
      | .error e => .error e
      | .ok m => .ok ((k, pv) :: m)

/-- read_prefs_map (prefs.rs lines 64-98). serde_json is an external
collaborator, so the function takes the parser's output — either a parse
diagnostic or the parsed string-keyed document — in place of the raw text;
a parse failure is wrapped in `JsonParseErr` by the source's `map_err`. -/
def read_prefs_map (parsed : Except String (List (String × Value))) :
    Except PrefError (List (String × PrefValue)) :=
  match parsed with
  | .error e => .error (.jsonParseErr e)
  | .ok doc => read_prefs_map_entries doc

/-- Modelled from the spec: an Accessor Table entry (sections 3 and 4.2);
pref_util.rs and the generated accessor table are not part of the excerpt.
The getter reads the field as a Value Kind; the setter writes a Value Kind,
failing on a shape mismatch. -/
structure Accessor (α : Type) where
  get : α → PrefValue
  set : α → PrefValue → Except PrefError α

/-- Modelled from the spec: the Preferences store of pref_util.rs
(section 4.3) — one schema value plus the accessor table, generic over the
generated schema type. -/
structure Preferences (α : Type) where
  value : α
  accessors : List (String × Accessor α)

/-- Modelled from the spec: `Preferences::set` (section 4.3) — NoSuchPref
when the key is absent from the accessor table, otherwise the field's setter
decides. -/
def Preferences.setPref (p : Preferences α) (k : String) (v : PrefValue) :
    Except PrefError (Preferences α) :=
  match p.accessors.find? (fun e => e.1 == k) with
  | none => .error (.noSuchPref k)
  | some e =>
    match e.2.set p.value v with
    | .ok a => .ok ⟨a, p.accessors⟩
    | .error err => .error err

/-- Modelled from the spec: `Preferences::set_all` (section 4.3) — entries
applied left to right through `set`; the first failure is returned at once
and earlier entries stay applied. -/
def Preferences.set_all (p : Preferences α) : List (String × PrefValue) → Except PrefError (Preferences α)
  | [] => .ok p
  | (k, v) :: rest =>
    match p.setPref k v with
    | .ok p2 => p2.set_all rest
    | .error e => .error e

/-- The outcome of running code that may call panic! (or .expect): either a
normal return or a process abort carrying the panic payload. -/
inductive Outcome (ε α : Type) where
  | ret : α → Outcome ε α
  | panicked : ε → Outcome ε α

/-- add_user_prefs (prefs.rs lines 58-62): applies the mapping to the
process-wide store through set_all and calls
`panic!("Error setting preference: \x7b:?\x7d", error)` on failure; the
embedding keeps the formatted error as the panic payload. State-passing
form: the global PREFS store is the explicit argument. -/
def add_user_prefs (store : Preferences α) (prefs : List (String × PrefValue)) :
    Outcome PrefError (Preferences α) :=
  match store.set_all prefs with
  | .ok s => .ret s
  | .error e => .panicked e

/-- The lazy_static PREFS initializer (prefs.rs lines 16-22). Deserializing
the bundled defaults resource into the schema type is the external serde
step, so its result enters as an Except; on failure,
`.expect("Failed to initialize config preferences.")` aborts the process
with that message followed by the parser's diagnostic. Generic over the
generated schema type. -/
def prefs_static_init (parsedDefaults : Except String α)
    (table : List (String × Accessor α)) : Outcome String (Preferences α) :=
  match parsedDefaults with
  | .ok p => .ret ⟨p, table⟩
  | .error e => .panicked ("Failed to initialize config preferences.: " ++ e)

/-- One past the largest u64, the modulus of usize arithmetic. -/
def u64Mod : Nat := 2 ^ 64

/-- The `as i64` cast from usize: reduce modulo 2^64, then reinterpret into
the range [-2^63, 2^63). -/
def usize_as_i64 (n : Nat) : Int :=
  if n % u64Mod < 2 ^ 63 then ((n % u64Mod : Nat) : Int)
  else ((n % u64Mod : Nat) : Int) - (u64Mod : Int)

/-- gen::default_layout_threads (prefs.rs lines 104-107):
`std::cmp::max(num_cpus::get() * 3 / 4, 1) as i64`. `cpus` stands for the
usize returned by num_cpus::get(); the usize multiplication wraps
modulo 2^64. -/
def default_layout_threads (cpus : Nat) : Int :=
  usize_as_i64 (max (cpus * 3 % u64Mod / 4) 1)

/-- Modelled from the spec and the serde contract: the Layout.threads field
(prefs.rs lines 728-730) is declared with a serde default supplier of
default_layout_threads, so deserialization uses the supplied value when the
key is present and falls back to the supplier when it is absent. -/
def layout_threads_field (supplied : Option Int) (cpus : Nat) : Int :=
  supplied.getD (default_layout_threads cpus)

/-- The first value, in document order, that the per-entry conversion of
read_prefs_map rejects; none when every entry converts. -/
def firstFailingValue : List (String × Value) → Option Value
  | [] => none
  | (_, v) :: rest =>
    match read_prefs_map_value v with
    | .error _ => some v
    | .ok _ => firstFailingValue rest

/-- True when a Value Kind is not a non-empty array (arrays must have been
collected empty). Mapping values that pass this check contain no non-empty
Array anywhere, since an empty array has no elements. -/
def hasOnlyEmptyArrays : PrefValue → Bool
  | .Array l => l.isEmpty
  | _ => true

/-- C1: the claim says a successfully converted JSON array becomes an Array
Value Kind holding exactly the converted elements in order. Evaluating
read_prefs_map at the parsed document with key "a" bound to the array
containing the single boolean true shows the code instead returns an empty
Array: `array.all` exhausts the element iterator during validation, so the
subsequent collect gathers nothing. The claim (and the spec's intent) is
right and the code is wrong. -/
theorem C1_array_elements_lost :
    read_prefs_map (.ok [("a", Value.arr [Value.bool true])]) =
      .ok [("a", PrefValue.Array [])] := rfl

/-- C2 counterexample: over a trivial schema with an empty accessor table,
applying the mapping binding "k" to Bool true fails set_all with NoSuchPref,
and add_user_prefs panics the process with that error instead of returning
it to the caller, contradicting the claim that such errors are propagated as
typed results and never abort the process. -/
theorem C2_add_user_prefs_panics :
    add_user_prefs (⟨(), []⟩ : Preferences Unit) [("k", PrefValue.Bool true)] =
      .panicked (PrefError.noSuchPref "k") := rfl

/-- C2 (amended): read_prefs_map returns its errors as typed results, but
add_user_prefs does not: whenever applying the mapping to the store through
set_all fails, add_user_prefs panics the process with the formatted error
rather than propagating it. -/
theorem C2_add_user_prefs_panics_on_error {α : Type} (store : Preferences α)
    (prefs : List (String × PrefValue)) (e : PrefError)
    (h : store.set_all prefs = .error e) :
    add_user_prefs store prefs = .panicked e := by
  unfold add_user_prefs
  rw [h]

/-- Witness for C2 (amended): the concrete one-entry mapping under an empty
accessor table fails with NoSuchPref and add_user_prefs panics with it. -/
theorem C2_add_user_prefs_panics_on_error_witness :
    add_user_prefs (⟨(), []⟩ : Preferences Unit) [("x", PrefValue.Int 7)] =
      .panicked (PrefError.noSuchPref "x") :=
  C2_add_user_prefs_panics_on_error (⟨(), []⟩ : Preferences Unit)
    [("x", PrefValue.Int 7)] (PrefError.noSuchPref "x") rfl

/-- C3 counterexample: 2^63 is an integer JSON number node (serde_json
stores it as a u64), yet is_i64 and is_f64 both fail on it, so
read_prefs_map rejects the scalar with InvalidValue — contradicting the
claim that no scalar node is rejected. -/
theorem C3_huge_integer_rejected :
    read_prefs_map (.ok [("a", Value.num (JNumber.posInt (2 ^ 63)))]) =
      .error (PrefError.invalidValue (Value.num (JNumber.posInt (2 ^ 63)))) := by
  simp [read_prefs_map, read_prefs_map_entries, read_prefs_map_value,
    JNumber.asI64, JNumber.asF64, i64Max]

/-- C3 (amended): scalar conversion is total on boolean nodes, string
nodes, integer number nodes representable as i64 (u64-stored values up to
i64Max and all i64-stored values), and float-stored number nodes; an
integer number node beyond the i64 range (u64-only) is rejected with
InvalidValue rather than converted. -/
theorem C3_scalar_conversion (b : Bool) (s : String) (f : F64) (i : Int)
    (n m : Nat) (hn : n ≤ i64Max) (hm : i64Max < m) :
    read_prefs_map_value (Value.bool b) = .ok (PrefValue.Bool b) ∧
    read_prefs_map_value (Value.str s) = .ok (PrefValue.Str s) ∧
    read_prefs_map_value (Value.num (JNumber.posInt n)) = .ok (PrefValue.Int (n : Int)) ∧
    read_prefs_map_value (Value.num (JNumber.negInt i)) = .ok (PrefValue.Int i) ∧
    read_prefs_map_value (Value.num (JNumber.float f)) = .ok (PrefValue.Float f) ∧
    read_prefs_map_value (Value.num (JNumber.posInt m)) =
      .error (PrefError.invalidValue (Value.num (JNumber.posInt m))) := by
  refine ⟨rfl, rfl, ?_, rfl, rfl, ?_⟩
  · simp [read_prefs_map_value, JNumber.asI64, hn]
  · simp [read_prefs_map_value, JNumber.asI64, JNumber.asF64, Nat.not_le.mpr hm]

/-- Witness for C3 (amended): the conversions evaluated at true, "home",
the float with bit pattern 5, -3, 42 and 2^63. -/
theorem C3_scalar_conversion_witness :
    read_prefs_map_value (Value.bool true) = .ok (PrefValue.Bool true) ∧
    read_prefs_map_value (Value.str "home") = .ok (PrefValue.Str "home") ∧
    read_prefs_map_value (Value.num (JNumber.posInt 42)) = .ok (PrefValue.Int (42 : Int)) ∧
    read_prefs_map_value (Value.num (JNumber.negInt (-3))) = .ok (PrefValue.Int (-3)) ∧
    read_prefs_map_value (Value.num (JNumber.float ⟨5⟩)) = .ok (PrefValue.Float ⟨5⟩) ∧
    read_prefs_map_value (Value.num (JNumber.posInt (2 ^ 63))) =
      .error (PrefError.invalidValue (Value.num (JNumber.posInt (2 ^ 63)))) :=
  C3_scalar_conversion true "home" ⟨5⟩ (-3) 42 (2 ^ 63)
    (by simp [i64Max]) (by simp [i64Max])

/-- Every error produced by the per-entry conversion is an InvalidValue
carrying the entry's whole value. -/
theorem read_prefs_map_value_error_shape (v : Value) (e : PrefError)
    (h : read_prefs_map_value v = .error e) : e = .invalidValue v := by
  cases v with
  | null => simp only [read_prefs_map_value, Except.error.injEq] at h; exact h.symm
  | bool b => simp [read_prefs_map_value] at h
  | str s => simp [read_prefs_map_value] at h
  | num n =>
    simp only [read_prefs_map_value] at h
    cases hi : n.asI64 with
    | some i => rw [hi] at h; simp at h
    | none =>
      rw [hi] at h
      cases hf : n.asF64 with
      | some f => rw [hf] at h; simp at h
      | none =>
        rw [hf] at h
        simp only [Except.error.injEq] at h
        exact h.symm
  | arr l =>
    simp only [read_prefs_map_value] at h
    split at h
    · simp at h
    · simp only [Except.error.injEq] at h
      exact h.symm
  | obj l =>
    simp only [read_prefs_map_value, Except.error.injEq] at h
    exact h.symm

/-- C4: for every parsed override document containing at least one value
node that the conversion rejects (equivalently: whose first failing value in
document order is w), read_prefs_map rejects the entire document with an
InvalidValue error carrying that offending value, and returns no mapping at
all. (In the source the failing entry is the first in HashMap iteration
order; the embedding fixes that order as the list order.) -/
theorem C4_invalid_value_rejects_document (doc : List (String × Value)) (w : Value)
    (h : firstFailingValue doc = some w) :
    read_prefs_map (.ok doc) = .error (PrefError.invalidValue w) := by
  simp only [read_prefs_map]
  induction doc with
  | nil => simp [firstFailingValue] at h
  | cons p rest ih =>
    obtain ⟨k, v⟩ := p
    simp only [firstFailingValue] at h
    simp only [read_prefs_map_entries]
    cases hv : read_prefs_map_value v with
    | error e =>
      rw [hv] at h
      simp only [Option.some.injEq] at h
      subst h
      rw [read_prefs_map_value_error_shape v e hv]
    | ok pv =>
      rw [hv] at h
      rw [ih h]

/-- Witness for C4: the two-entry document whose second value is null is
rejected whole with InvalidValue carrying null. -/
theorem C4_invalid_value_rejects_document_witness :
    read_prefs_map (.ok [("ok", Value.bool true), ("bad", Value.null)]) =
      .error (PrefError.invalidValue Value.null) :=
  C4_invalid_value_rejects_document
    [("ok", Value.bool true), ("bad", Value.null)] Value.null rfl

/-- When Iterator::all returns true it has consumed the whole iterator:
nothing is left. -/
theorem iterAllLeftover_true (l r : List (Option PrefValue))
    (h : iterAllLeftover l = (true, r)) : r = [] := by
  induction l with
  | nil =>
    simp only [iterAllLeftover, Prod.mk.injEq] at h
    exact h.2.symm
  | cons x xs ih =>
    simp only [iterAllLeftover] at h
    split at h
    · exact ih h
    · simp at h

/-- Every Value Kind produced by the per-entry conversion passes the
empty-array check: scalars trivially, and arrays because the validity check
exhausted the element iterator before collection. -/
theorem read_prefs_map_value_arrays_empty (v : Value) (pv : PrefValue)
    (h : read_prefs_map_value v = .ok pv) : hasOnlyEmptyArrays pv = true := by
  cases v with
  | null => simp [read_prefs_map_value] at h
  | bool b =>
    simp only [read_prefs_map_value, Except.ok.injEq] at h
    rw [← h]
    rfl
  | str s =>
    simp only [read_prefs_map_value, Except.ok.injEq] at h
    rw [← h]
    rfl
  | num n =>
    simp only [read_prefs_map_value] at h
    cases hi : n.asI64 with
    | some i =>
      rw [hi] at h
      simp only [Except.ok.injEq] at h
      rw [← h]
      rfl
    | none =>
      rw [hi] at h
      cases hf : n.asF64 with
      | some f =>
        rw [hf] at h
        simp only [Except.ok.injEq] at h
        rw [← h]
        rfl
      | none => rw [hf] at h; simp at h
  | arr l =>
    simp only [read_prefs_map_value] at h
    split at h
    · rename_i hc
      simp only [Except.ok.injEq] at h
      have hleft : (iterAllLeftover (l.map PrefValue.from_json_value)).2 = [] :=
        iterAllLeftover_true _ _ (Prod.ext hc rfl)
      rw [← h, hasOnlyEmptyArrays, hleft]
      rfl
    · simp at h
  | obj l => simp [read_prefs_map_value] at h

/-- The mapping-wide check that no value is a non-empty Array. -/
def mappingArraysEmpty (m : List (String × PrefValue)) : Bool :=
  m.all fun p => hasOnlyEmptyArrays p.2

/-- C8: whenever read_prefs_map succeeds, every Array value kind in the
returned mapping is empty, regardless of how many elements the JSON array
node held: `array.all(|v| v.is_some())` exhausts the element iterator, so
`array.flatten().collect()` gathers nothing. -/
theorem C8_success_arrays_empty (doc : List (String × Value))
    (m : List (String × PrefValue))
    (h : read_prefs_map (.ok doc) = .ok m) :
    mappingArraysEmpty m = true := by
  simp only [read_prefs_map] at h
  induction doc generalizing m with
  | nil =>
    simp only [read_prefs_map_entries, Except.ok.injEq] at h
    rw [← h]
    rfl
  | cons p rest ih =>
    obtain ⟨k, v⟩ := p
    simp only [read_prefs_map_entries] at h
    cases hv : read_prefs_map_value v with
    | error e => rw [hv] at h; simp at h
    | ok pv =>
      rw [hv] at h
      cases hr : read_prefs_map_entries rest with
      | error e => rw [hr] at h; simp at h
      | ok m2 =>
        rw [hr] at h
        simp only [Except.ok.injEq] at h
        rw [← h]
        simp only [mappingArraysEmpty, List.all_cons, Bool.and_eq_true]
        exact ⟨read_prefs_map_value_arrays_empty v pv hv, ih m2 hr⟩

/-- Witness for C8: the document binding "a" to the two-element array
[-1, false] converts successfully, and the resulting mapping's only Array is
empty. -/
theorem C8_success_arrays_empty_witness :
    mappingArraysEmpty [("a", PrefValue.Array [])] = true :=
  C8_success_arrays_empty
    [("a", Value.arr [Value.num (JNumber.negInt (-1)), Value.bool false])]
    [("a", PrefValue.Array [])] rfl

/-- C9: read_prefs_map is a pure function of the parsed document (the
embedding passes no store state), and on success the returned mapping's
keys are exactly the top-level keys of the parsed object, unchanged (and in
the same order, in the list embedding). -/
theorem C9_keys_preserved (doc : List (String × Value))
    (m : List (String × PrefValue))
    (h : read_prefs_map (.ok doc) = .ok m) :
    m.map Prod.fst = doc.map Prod.fst := by
  simp only [read_prefs_map] at h
  induction doc generalizing m with
  | nil =>
    simp only [read_prefs_map_entries, Except.ok.injEq] at h
    rw [← h]
    rfl
  | cons p rest ih =>
    obtain ⟨k, v⟩ := p
    simp only [read_prefs_map_entries] at h
    cases hv : read_prefs_map_value v with
    | error e => rw [hv] at h; simp at h
    | ok pv =>
      rw [hv] at h
      cases hr : read_prefs_map_entries rest with
      | error e => rw [hr] at h; simp at h
      | ok m2 =>
        rw [hr] at h
        simp only [Except.ok.injEq] at h
        rw [← h]
        simp only [List.map_cons]
        rw [ih m2 hr]

/-- Witness for C9: a two-entry document converts with its keys "a", "b"
passed through unchanged and in order. -/
theorem C9_keys_preserved_witness :
    ([("a", PrefValue.Bool true), ("b", PrefValue.Int 2)].map Prod.fst) =
      ([("a", Value.bool true), ("b", Value.num (JNumber.negInt 2))].map Prod.fst) :=
  C9_keys_preserved
    [("a", Value.bool true), ("b", Value.num (JNumber.negInt 2))]
    [("a", PrefValue.Bool true), ("b", PrefValue.Int 2)] rfl

/-- The usize-to-i64 cast is the identity below 2^63. -/
theorem usize_as_i64_small (n : Nat) (h : n < 2 ^ 63) :
    usize_as_i64 n = (n : Int) := by
  unfold usize_as_i64 u64Mod
  rw [Nat.mod_eq_of_lt (h.trans (by norm_num))]
  rw [if_pos h]

/-- C10: default_layout_threads computes max(cpus * 3 / 4, 1) (exactly, for
every cpu count whose tripling fits a usize), is at least 1 for every cpu
count, and a defaults document omitting the layout threads field takes the
supplier's value, hence always a positive thread count. -/
theorem C10_layout_threads_positive (cpus : Nat) :
    1 ≤ default_layout_threads cpus ∧
    (cpus * 3 < u64Mod →
      default_layout_threads cpus = ((max (cpus * 3 / 4) 1 : Nat) : Int)) ∧
    layout_threads_field none cpus = default_layout_threads cpus := by
  refine ⟨?_, ?_, rfl⟩
  · have hm : cpus * 3 % u64Mod / 4 < 2 ^ 63 := by
      unfold u64Mod
      omega
    unfold default_layout_threads
    rw [usize_as_i64_small _ (max_lt hm (by norm_num))]
    exact_mod_cast le_max_right _ 1
  · intro h
    have h4 : cpus * 3 % u64Mod = cpus * 3 := Nat.mod_eq_of_lt h
    have hm : cpus * 3 / 4 < 2 ^ 63 := by
      unfold u64Mod at h
      omega
    unfold default_layout_threads
    rw [h4, usize_as_i64_small _ (max_lt hm (by norm_num))]

/-- Witness for C10: at 8 cpus the default supplier yields max(6, 1) = 6,
a positive count, and the omitted field takes that value. -/
theorem C10_layout_threads_positive_witness :
    1 ≤ default_layout_threads 8 ∧
    default_layout_threads 8 = ((max (8 * 3 / 4) 1 : Nat) : Int) ∧
    layout_threads_field none 8 = default_layout_threads 8 :=
  ⟨(C10_layout_threads_positive 8).1,
   (C10_layout_threads_positive 8).2.1 (by norm_num [u64Mod]),
   (C10_layout_threads_positive 8).2.2⟩

/-- C5: when deserializing the bundled default-preferences resource into the
schema type fails, the store initializer aborts the process with the
diagnostic "Failed to initialize config preferences." followed by the
parser's message, instead of continuing with an undefined configuration. -/
theorem C5_defaults_parse_failure_aborts (α : Type)
    (table : List (String × Accessor α)) (e : String) :
    prefs_static_init (Except.error e) table =
      .panicked ("Failed to initialize config preferences.: " ++ e) := rfl

/-- C6: whenever the external parse of the input text fails (the text is not
well-formed JSON or not a string-keyed object), read_prefs_map returns the
parser's diagnostic wrapped in JsonParseErr; the embedding is a total
function, so no input panics. -/
theorem C6_parse_error_wrapped (e : String) :
    read_prefs_map (.error e) = .error (PrefError.jsonParseErr e) := rfl

end ServoConfig
